import Mathlib

/-!
Shallow embedding of the conversation-orchestration and metrics-aggregation
core of the `stori-genai-rag` backend, together with proofs about the claims
of its specification.

Conventions used throughout:
* Python floats become `Rat` (all float arithmetic in the embedded code is
  addition, division and comparison of exact decimal literals).
* `datetime` values become `Int` timestamps (seconds); `timedelta(days=d)`
  becomes `d * 86400` and `timedelta(hours=h)` becomes `h * 3600`.
* Python `dict`s (which are insertion-ordered with in-place update) become
  association lists with `lookupA` / `setA` below.
* `Optional[T]` becomes `Option T`; the Python truthiness test
  `if x:` on an `Optional[str]` becomes `truthyOptStr` (none and the empty
  string are falsy).
* Python substring containment `needle in hay` becomes `strIn`.
-/

/-- First value bound to a key in an insertion-ordered association list
(Python `dict.get(k)` / `k in d`). -/
def lookupA {α : Type} : List (String × α) → String → Option α
  | [], _ => none
  | (k, v) :: rest, key => if k = key then some v else lookupA rest key

/-- Set a key in an insertion-ordered association list: replaces the value in
place if the key is present, appends at the end otherwise (Python
`d[k] = v`). -/
def setA {α : Type} : List (String × α) → String → α → List (String × α)
  | [], key, v => [(key, v)]
  | (k, w) :: rest, key, v =>
    if k = key then (k, v) :: rest else (k, w) :: setA rest key v

/-- Python truthiness of an `Optional[str]`: `None` and `""` are falsy. -/
def truthyOptStr : Option String → Bool
  | none => false
  | some s => s != ""

/-- Test whether the first character list is a prefix of the second. -/
def listStarts : List Char → List Char → Bool
  | [], _ => true
  | _ :: _, [] => false
  | a :: as, b :: bs => a == b && listStarts as bs

/-- Test whether the first character list occurs contiguously inside the
second. -/
def listHasSub (needle : List Char) : List Char → Bool
  | [] => needle.isEmpty
  | c :: rest => listStarts needle (c :: rest) || listHasSub needle rest

/-- Python `needle in hay` on strings (contiguous substring containment). -/
def strIn (needle hay : String) : Bool := listHasSub needle.data hay.data

/-- Python `str.lower()` (ASCII range, which covers every string constant in
the embedded code). -/
def pyLower (s : String) : String := ⟨s.data.map Char.toLower⟩

/-- Python `sep.join(parts)`. -/
def joinSep (sep : String) : List String → String
  | [] => ""
  | [x] => x
  | x :: rest => x ++ sep ++ joinSep sep rest

namespace MetricsService

/-- Embeds the `ResponseMetrics` dataclass of
`backend/app/services/metrics_service.py`. -/
structure ResponseMetrics where
  response_id : String
  conversation_id : String
  query : String
  response : String
  response_time : Rat
  confidence_score : Rat
  tools_used : List String
  sources_count : Nat
  timestamp : Int
  user_rating : Option String := none
  error_occurred : Bool := false
  error_message : Option String := none
deriving Repr, DecidableEq

/-- Embeds the `ConversationMetrics` dataclass; `tools_usage_count` is the
`defaultdict(int)` of the source, kept as an insertion-ordered association
list. -/
structure ConversationMetrics where
  conversation_id : String
  total_messages : Nat
  follow_up_questions : Nat
  context_retention_score : Rat
  average_response_time : Rat
  total_likes : Nat
  total_dislikes : Nat
  tools_usage_count : List (String × Nat)
  created_at : Int
  last_activity : Int
deriving Repr, DecidableEq

/-- Embeds the `SystemMetrics` dataclass. -/
structure SystemMetrics where
  total_queries : Nat
  total_errors : Nat
  average_response_time : Rat
  like_percentage : Rat
  tool_effectiveness : List (String × Rat)
  error_rate : Rat
  conversation_retention_rate : Rat
  timestamp : Int
deriving Repr, DecidableEq

/-- The mutable collections of `MetricsService` (`self.response_metrics` and
`self.conversation_metrics`; the cached `self.system_metrics` snapshot is
write-only in the source and therefore omitted). -/
structure MetricsState where
  response_metrics : List ResponseMetrics
  conversation_metrics : List (String × ConversationMetrics)
deriving Repr, DecidableEq

/-- The state of a freshly constructed `MetricsService`. -/
def initState : MetricsState := ⟨[], []⟩

/-- The fresh `ConversationMetrics` record built by
`_update_conversation_metrics` when the conversation id is absent. -/
def freshConversationMetrics (conversation_id : String) (now : Int) :
    ConversationMetrics :=
  { conversation_id := conversation_id
    total_messages := 0
    follow_up_questions := 0
    context_retention_score := 0
    average_response_time := 0
    total_likes := 0
    total_dislikes := 0
    tools_usage_count := []
    created_at := now
    last_activity := now }

/-- One `tools_usage_count[tool] += 1` step on the `defaultdict(int)`. -/
def bumpTool (counts : List (String × Nat)) (tool : String) :
    List (String × Nat) :=
  setA counts tool ((lookupA counts tool).getD 0 + 1)

/-- Embeds `MetricsService._update_conversation_metrics`: creates the
conversation record if absent, increments `total_messages`, refreshes
`last_activity`, bumps tool usage, bumps like/dislike counters from the
passed response record, counts a follow-up when `total_messages > 1`, and
recomputes `average_response_time` over the response rows of this conversation. -/
def update_conversation_metrics (st : MetricsState) (conversation_id : String)
    (rm : ResponseMetrics) (now : Int) : MetricsState :=
  let conv0 := (lookupA st.conversation_metrics conversation_id).getD
    (freshConversationMetrics conversation_id now)
  let conv1 := { conv0 with
    total_messages := conv0.total_messages + 1
    last_activity := now }
  let conv2 := { conv1 with
    tools_usage_count := rm.tools_used.foldl bumpTool conv1.tools_usage_count }
  let conv3 := { conv2 with
    total_likes :=
      if rm.user_rating == some "like" then conv2.total_likes + 1
      else conv2.total_likes
    total_dislikes :=
      if rm.user_rating == some "dislike" then conv2.total_dislikes + 1
      else conv2.total_dislikes }
  let conv4 := { conv3 with
    follow_up_questions :=
      if conv3.total_messages > 1 then conv3.follow_up_questions + 1
      else conv3.follow_up_questions }
  let convResponses := st.response_metrics.filter
    (fun r => r.conversation_id == conversation_id)
  let conv5 :=
    if convResponses.isEmpty then conv4
    else { conv4 with
      average_response_time :=
        (convResponses.map ResponseMetrics.response_time).sum /
          (convResponses.length : Rat) }
  { st with
    conversation_metrics := setA st.conversation_metrics conversation_id conv5 }

/-- Embeds `MetricsService.record_response`; the fresh uuid and the current
time are supplied by the caller of the model. Returns the new state and the
new response id. -/
def record_response (st : MetricsState)
    (conversation_id query response : String)
    (response_time confidence_score : Rat) (tools_used : List String)
    (sources_count : Nat) (error_occurred : Bool)
    (error_message : Option String) (response_id : String) (now : Int) :
    MetricsState × String :=
  let rm : ResponseMetrics :=
    { response_id := response_id
      conversation_id := conversation_id
      query := query
      response := response
      response_time := response_time
      confidence_score := confidence_score
      tools_used := tools_used
      sources_count := sources_count
      timestamp := now
      user_rating := none
      error_occurred := error_occurred
      error_message := error_message }
  let st1 : MetricsState :=
    { st with response_metrics := st.response_metrics ++ [rm] }
  (update_conversation_metrics st1 conversation_id rm now, response_id)

/-- First response row with the given id (the linear scan of
`record_user_rating`). -/
def findResp : List ResponseMetrics → String → Option ResponseMetrics
  | [], _ => none
  | rm :: rest, rid =>
    if rm.response_id == rid then some rm else findResp rest rid

/-- In-place mutation `metrics.user_rating = rating` of the first row with
the given id. -/
def setRating : List ResponseMetrics → String → String → List ResponseMetrics
  | [], _, _ => []
  | rm :: rest, rid, rating =>
    if rm.response_id == rid then { rm with user_rating := some rating } :: rest
    else rm :: setRating rest rid rating

/-- Embeds `MetricsService.record_user_rating`: linear scan for the response
id; if found, set `user_rating` and re-run `_update_conversation_metrics`
with the mutated row, returning `true`; otherwise return `false`. -/
def record_user_rating (st : MetricsState) (response_id rating : String)
    (now : Int) : MetricsState × Bool :=
  match findResp st.response_metrics response_id with
  | none => (st, false)
  | some rm =>
    let rm1 := { rm with user_rating := some rating }
    let st1 :=
      { st with response_metrics := setRating st.response_metrics response_id rating }
    (update_conversation_metrics st1 rm1.conversation_id rm1 now, true)

/-- The `rated_responses` filter of `get_system_metrics`: rows whose
`user_rating` is truthy (`if rm.user_rating:` in Python — `None` and `""`
do not count). -/
def ratedResponses (l : List ResponseMetrics) : List ResponseMetrics :=
  l.filter (fun rm => truthyOptStr rm.user_rating)

/-- One `tool_ratings[tool].append(rating)` step on the
`defaultdict(list)`. -/
def appendToolRating (m : List (String × List String)) (tool rating : String) :
    List (String × List String) :=
  setA m tool ((lookupA m tool).getD [] ++ [rating])

/-- The `tool_ratings` map of `get_system_metrics`: for every response row
and every tool it used, append the rating of the row when the rating is truthy
(a key only comes into existence on the first such append). -/
def toolRatingsOf (l : List ResponseMetrics) : List (String × List String) :=
  l.foldl
    (fun m rm =>
      rm.tools_used.foldl
        (fun m tool =>
          if truthyOptStr rm.user_rating then
            appendToolRating m tool (rm.user_rating.getD "")
          else m)
        m)
    []

/-- The `tool_effectiveness` map of `get_system_metrics`: per tool, the
like-rate (percent) among its collected ratings; the `else 0.0` arm of the
source is kept although `tool_ratings` never holds an empty list. -/
def toolEffectivenessOf (tr : List (String × List String)) :
    List (String × Rat) :=
  tr.map (fun p =>
    if p.2.isEmpty then (p.1, (0 : Rat))
    else
      (p.1, ((p.2.filter (fun r => r == "like")).length : Rat) /
        (p.2.length : Rat) * 100))

/-- Embeds `MetricsService.get_system_metrics` (the on-demand snapshot; the
local `tool_usage` counter of the source is computed but never used for the
returned value, so it is not modelled). -/
def get_system_metrics (st : MetricsState) (now : Int) : SystemMetrics :=
  if st.response_metrics.isEmpty then
    { total_queries := 0
      total_errors := 0
      average_response_time := 0
      like_percentage := 0
      tool_effectiveness := []
      error_rate := 0
      conversation_retention_rate := 0
      timestamp := now }
  else
    let total_queries := st.response_metrics.length
    let total_errors :=
      (st.response_metrics.filter (fun rm => rm.error_occurred)).length
    let average_response_time :=
      (st.response_metrics.map ResponseMetrics.response_time).sum /
        (total_queries : Rat)
    let rated := ratedResponses st.response_metrics
    let like_percentage :=
      if rated.isEmpty then (0 : Rat)
      else ((rated.filter (fun rm => rm.user_rating == some "like")).length : Rat) /
        (rated.length : Rat) * 100
    let tool_effectiveness := toolEffectivenessOf (toolRatingsOf st.response_metrics)
    let error_rate :=
      if total_queries > 0 then ((total_errors : Rat) / (total_queries : Rat)) * 100
      else (0 : Rat)
    let conversation_retention_rate :=
      if st.conversation_metrics.isEmpty then (0 : Rat)
      else (((st.conversation_metrics.filter
          (fun p => p.2.follow_up_questions > 0)).length : Rat) /
        (st.conversation_metrics.length : Rat)) * 100
    { total_queries := total_queries
      total_errors := total_errors
      average_response_time := average_response_time
      like_percentage := like_percentage
      tool_effectiveness := tool_effectiveness
      error_rate := error_rate
      conversation_retention_rate := conversation_retention_rate
      timestamp := now }

/-- Embeds `MetricsService.get_conversation_metrics` (a plain dict lookup;
the source method does not take the mutex). -/
def get_conversation_metrics (st : MetricsState) (conversation_id : String) :
    Option ConversationMetrics :=
  lookupA st.conversation_metrics conversation_id

/-- Embeds `MetricsService.get_all_conversation_metrics`. -/
def get_all_conversation_metrics (st : MetricsState) :
    List ConversationMetrics :=
  st.conversation_metrics.map Prod.snd

/-- Embeds `MetricsService.get_response_metrics`. -/
def get_response_metrics (st : MetricsState) (response_id : String) :
    Option ResponseMetrics :=
  findResp st.response_metrics response_id

/-- Embeds `MetricsService.get_recent_metrics` (rows with
`timestamp >= now - hours`). -/
def get_recent_metrics (st : MetricsState) (hours : Int) (now : Int) :
    List ResponseMetrics :=
  let cutoff_time := now - hours * 3600
  st.response_metrics.filter (fun rm => cutoff_time ≤ rm.timestamp)

/-- Embeds `MetricsService.clear_old_metrics`: `days == 0` empties both
collections; otherwise response rows with `timestamp >= cutoff` and
conversation rows with `last_activity >= cutoff` are kept. -/
def clear_old_metrics (st : MetricsState) (days : Int) (now : Int) :
    MetricsState :=
  if days = 0 then ⟨[], []⟩
  else
    let cutoff_time := now - days * 86400
    { response_metrics :=
        st.response_metrics.filter (fun rm => cutoff_time ≤ rm.timestamp)
      conversation_metrics :=
        st.conversation_metrics.filter
          (fun p => cutoff_time ≤ p.2.last_activity) }

/-- One entry of the `self.test_queries` table built by
`_initialize_test_queries`. -/
structure TestQuery where
  query : String
  expected_answer : String
  keywords : List String
deriving Repr, DecidableEq

/-- Embeds `_initialize_test_queries` (insertion order of the Python dict
is the order of this list). -/
def test_queries : List (String × TestQuery) :=
  [("mexican_revolution_start",
    { query := "When did the Mexican Revolution start?"
      expected_answer := "1910"
      keywords := ["1910", "revolution", "start", "begin"] }),
   ("pancho_villa",
    { query := "Who was Pancho Villa?"
      expected_answer := "revolutionary leader"
      keywords := ["revolutionary", "leader", "general", "dorado"] }),
   ("emiliano_zapata",
    { query := "What was Emiliano Zapata known for?"
      expected_answer := "land reform"
      keywords := ["land", "reform", "agrarian", "peasant"] })]

/-- The loop of `calculate_response_accuracy` over the table, with the
query and response already lowercased. The float literals 1.0, 0.7, 0.3 and
0.5 of the source become the exact rationals `1`, `mkRat 7 10`,
`mkRat 3 10` and `mkRat 1 2`. -/
def accuracyScan (ql rl : String) : List (String × TestQuery) → Rat
  | [] => mkRat 1 2
  | (_, t) :: rest =>
    if t.keywords.any (fun k => strIn k ql) then
      if strIn (pyLower t.expected_answer) rl then 1
      else if t.keywords.any (fun k => strIn k rl) then mkRat 7 10
      else mkRat 3 10
    else accuracyScan ql rl rest

/-- Embeds `MetricsService.calculate_response_accuracy`. -/
def calculate_response_accuracy (query response : String) : Rat :=
  accuracyScan (pyLower query) (pyLower response) test_queries

/-- A `record_response` call with all its arguments (fresh uuid and clock
reading included), used to quantify over call sequences. -/
structure RecordArgs where
  conversation_id : String
  query : String
  response : String
  response_time : Rat
  confidence_score : Rat
  tools_used : List String
  sources_count : Nat
  error_occurred : Bool
  error_message : Option String
  response_id : String
  now : Int
deriving Repr, DecidableEq

/-- Apply one `record_response` call. -/
def applyRecord (st : MetricsState) (a : RecordArgs) : MetricsState :=
  (record_response st a.conversation_id a.query a.response a.response_time
    a.confidence_score a.tools_used a.sources_count a.error_occurred
    a.error_message a.response_id a.now).1

/-- Run a sequence of `record_response` calls. -/
def runRecords (st : MetricsState) (l : List RecordArgs) : MetricsState :=
  l.foldl applyRecord st

/-- A public mutating call of the aggregator: `record_response` or
`record_user_rating`. -/
inductive MetricsOp where
  | response (args : RecordArgs)
  | rating (response_id rating : String) (now : Int)
deriving Repr, DecidableEq

/-- Apply one mutating call. -/
def applyOp (st : MetricsState) : MetricsOp → MetricsState
  | .response a => applyRecord st a
  | .rating rid rating now => (record_user_rating st rid rating now).1

/-- Run a sequence of mutating calls from a given state. -/
def runOps (st : MetricsState) (ops : List MetricsOp) : MetricsState :=
  ops.foldl applyOp st


end MetricsService

namespace RAGService

/-- One stored conversation turn, as written by `MemoryService.add_message`
(the timestamp attached by the source is never read back and is omitted). -/
structure Msg where
  role : String
  content : String
deriving Repr, DecidableEq

/-- The escalation record stored by `HumanEscalationTool.run` under the
`escalation:<id>` preferences key (its timestamp is omitted as above). -/
structure EscalationRecord where
  escalation_id : String
  conversation_id : String
  reason : String
  status : String
deriving Repr, DecidableEq

/-- The externally persisted state touched by `process_message`: the
conversation logs and summaries of `MemoryService` (Redis) and the stored
escalation records. -/
structure RagState where
  conversations : List (String × List Msg)
  summaries : List (String × String)
  escalations : List EscalationRecord
deriving Repr, DecidableEq

/-- One adapter call performed during `process_message`, in order. -/
inductive CallTag where
  | get_messages (conversation_id : String)
  | safety_check (text : String)
  | intent_classify (text : String)
  | add_message (conversation_id role content : String)
  | vector_search (query : String)
  | generate (system_prompt : String)
  | store_preferences (key : String)
  | summarize
deriving Repr, DecidableEq

/-- Oracle for one `process_message` call: the values the external
adapters would produce. `BedrockService.check_content_safety` and
`classify_intent` catch all of their own exceptions and fall back to fixed
dictionaries, so they are total; only `generate_response` re-raises, hence
`generate` is the one `Except`-valued generation field. `MemoryService`
methods catch all of their own exceptions and report failure as a boolean
or a fallback value, so memory outcomes are booleans. `is_safe`, `intent`
and `confidence` are `Option`s because the parsed JSON may lack those keys
(`dict.get` with a default at the use site). -/
structure Env where
  getMessagesFails : Bool
  is_safe : Option Bool
  intent : Option String
  confidence : Option Rat
  search : Except String (List String)
  generate : Except String String
  summarize : Except String String
  getSummaryFails : Bool
  storeSummaryOk : Bool
  storePreferencesOk : Bool
  addMessageOk : Nat → Bool
  freshUuid : String
  freshUuid2 : String
  freshEscalationId : String

/-- Running log of adapter calls plus the count of `add_message` calls so
far (used to index `Env.addMessageOk`). -/
structure Trace where
  calls : List CallTag
  addCount : Nat
deriving Repr

/-- Append a call to the trace. -/
def logCall (s : RagState × Trace) (c : CallTag) : RagState × Trace :=
  (s.1, { s.2 with calls := s.2.calls ++ [c] })

/-- Embeds `MemoryService.get_conversation_messages`: the stored list, or
`[]` when the conversation is absent or the store errors (the source
catches its own exceptions and returns `[]`). -/
def get_conversation_messages (st : RagState) (env : Env) (cid : String) :
    List Msg :=
  if env.getMessagesFails then [] else (lookupA st.conversations cid).getD []

/-- Embeds `MemoryService.add_message`: on success the turn is appended to
the conversation (created if absent) and `true` is returned; on any
internal failure nothing is persisted and `false` is returned (the source
catches all exceptions, so this call never raises). -/
def add_message (env : Env) (s : RagState × Trace) (cid role content : String) :
    (RagState × Trace) × Bool :=
  let ok := env.addMessageOk s.2.addCount
  let tr : Trace :=
    { calls := s.2.calls ++ [CallTag.add_message cid role content]
      addCount := s.2.addCount + 1 }
  if ok then
    let msgs := (lookupA s.1.conversations cid).getD [] ++ [⟨role, content⟩]
    (({ s.1 with conversations := setA s.1.conversations cid msgs }, tr), true)
  else ((s.1, tr), false)

/-- Embeds `HumanEscalationTool.run`. `store_user_preferences` and
`add_message` swallow their own errors and return booleans, so the `except` clause of the tool is unreachable and `run` always returns the success
message carrying the fresh escalation id; the record is persisted exactly
when the preferences store succeeds, and the system marker turn exactly
when its `add_message` succeeds. -/
def escalation_tool_run (env : Env) (s : RagState × Trace)
    (cid reason : String) : (RagState × Trace) × String :=
  let eid := env.freshEscalationId
  let s1 := logCall s (CallTag.store_preferences ("escalation:" ++ eid))
  let s2 :=
    if env.storePreferencesOk then
      ({ s1.1 with escalations :=
          s1.1.escalations ++ [⟨eid, cid, reason, "pending"⟩] }, s1.2)
    else s1
  let escalation_message :=
    "Conversation escalated to human agent. Reason: " ++ reason ++
      ". Escalation ID: " ++ eid
  let s3 := (add_message env s2 cid "system" escalation_message).1
  (s3, "Conversation escalated successfully. Escalation ID: " ++ eid)

/-- Embeds `ConversationSummaryTool.run` (total for the same reason:
every collaborator it calls catches its own exceptions;
`BedrockService.summarize_conversation` falls back to a fixed sentence). -/
def summary_tool_run (env : Env) (s : RagState × Trace) (cid : String) :
    (RagState × Trace) × String :=
  let s1 := logCall s (CallTag.get_messages cid)
  let messages := get_conversation_messages s1.1 env cid
  if messages.isEmpty then (s1, "No conversation found to summarize.")
  else
    let existing :=
      if env.getSummaryFails then none else lookupA s1.1.summaries cid
    match existing with
    | some summary => (s1, "Existing summary: " ++ summary)
    | none =>
      let s2 := logCall s1 CallTag.summarize
      let summary :=
        match env.summarize with
        | .ok t => t
        | .error _ => "Unable to generate summary at this time."
      let s3 :=
        if env.storeSummaryOk then
          ({ s2.1 with summaries := setA s2.1.summaries cid summary }, s2.2)
        else s2
      (s3, "Conversation summary generated: " ++ summary)

/-- Character class `[a-f0-9\-]` of the escalation-id pattern. -/
def isHexDash (c : Char) : Bool :=
  ('a' ≤ c && c ≤ 'f') || ('0' ≤ c && c ≤ '9') || c == '-'

/-- The literal part of the pattern `Escalation ID: ([a-f0-9\-]+)`. -/
def markerChars : List Char := "Escalation ID: ".data

/-- Embeds `re.search(r"Escalation ID: ([a-f0-9\-]+)", content)`: the
leftmost position where the literal is followed by at least one character
of the class matches, and the group is the maximal such run. -/
def scanEscalationId : List Char → Option String
  | [] => none
  | c :: rest =>
    if listStarts markerChars (c :: rest) then
      let run := ((c :: rest).drop markerChars.length).takeWhile isHexDash
      if run.isEmpty then scanEscalationId rest else some ⟨run⟩
    else scanEscalationId rest

/-- The scan of `process_message` over the prior history: the first
assistant turn with truthy content containing `Escalation ID:` from which
the pattern extracts an id (a turn whose content contains the substring
but defeats the pattern does not stop the scan, matching the `break` placement of the source). -/
def findEscalationId : List Msg → Option String
  | [] => none
  | m :: rest =>
    if m.role == "assistant" && m.content != "" &&
        strIn "Escalation ID:" m.content then
      match scanEscalationId m.content.data with
      | some i => some i
      | none => findEscalationId rest
    else findEscalationId rest

/-- One line of the recent-history transcript
(`Usuario:`/`Asistente:`-prefixed). -/
def contextLine (m : Msg) : String :=
  (if m.role == "user" then "Usuario" else "Asistente") ++ ": " ++ m.content

/-- The `conversation_context` transcript built from the last six turns
(empty when the history is empty). -/
def conversationContext (messages : List Msg) : String :=
  if messages.isEmpty then ""
  else joinSep "\n" ((messages.drop (messages.length - 6)).map contextLine)

/-- The system-prompt template of `_generate_rag_response` with the
retrieved context, the recent transcript and the current question
interpolated. -/
def buildSystemPrompt (context conversation_context message : String) :
    String :=
  "You are an expert assistant on the Mexican Revolution with conversation memory.\n\n" ++
  "<context_documents>\n" ++ context ++ "\n</context_documents>\n\n" ++
  "<conversation_history>\n" ++ conversation_context ++ "\n</conversation_history>\n\n" ++
  "<instructions>\n" ++
  "- MAXIMUM 2-3 sentences per answer\n" ++
  "- NO more than 50 words\n" ++
  "- Go STRAIGHT to the main point\n" ++
  "- DO NOT use lists or bullet points\n" ++
  "- DO NOT use phrases like \"According to the provided context\"\n" ++
  "- Only say \"I don\x27t have enough information\" if you can\x27t answer\n" ++
  "- IGNORE questions not related to the Mexican Revolution\n" ++
  "- ALWAYS consider the conversation history for contextual answers\n" ++
  "- If the question refers to something mentioned earlier, answer based on the history\n" ++
  "</instructions>\n\n" ++
  "<response_format>\n" ++
  "Respond in a compact paragraph without introductions.\n" ++
  "Example: \"Porfirio Díaz ruled Mexico for 30 years until 1910. His dictatorship led to the Revolution when Madero called for armed rebellion.\"\n" ++
  "</response_format>\n\n" ++
  "<current_question>\n" ++ message ++ "\n</current_question>\n\n" ++
  "ALWAYS answer in English if the question is in English, and in Spanish if the question is in Spanish.\n" ++
  "Be EXTREMELY BRIEF considering the conversation context:"

/-- Embeds `RAGService._generate_rag_response`: retrieval failure is caught
locally (sentinel context, no `document_search` tool); the generation call
may raise, which is reported as `Except.error` together with the trace as
it stood when the exception was thrown. -/
def generate_rag_response (env : Env) (s : RagState × Trace)
    (message : String) (conversation_messages : List Msg) :
    (RagState × Trace) × Except String (String × List String) :=
  let s1 := logCall s (CallTag.vector_search message)
  let (context, tools_used) :=
    match env.search with
    | .ok docs => (joinSep "\n\n" docs, ["document_search"])
    | .error _ => ("No relevant documents found.", ([] : List String))
  let conversation_context := conversationContext conversation_messages
  let prompt := buildSystemPrompt context conversation_context message
  let s2 := logCall s1 (CallTag.generate prompt)
  match env.generate with
  | .ok response => (s2, .ok (response, tools_used))
  | .error e => (s2, .error e)

/-- The result dictionary returned by `process_message`. -/
structure ChatResult where
  response : String
  conversation_id : String
  sources : List String
  tools_used : List String
  confidence_score : Rat
deriving Repr, DecidableEq

/-- The fixed safety refusal text. -/
def refusalText : String :=
  "No puedo procesar este mensaje ya que puede contener contenido inapropiado."

/-- The fixed off-topic refusal text. -/
def offTopicText : String :=
  "Solo puedo responder preguntas sobre la Revolución Mexicana basándome en los documentos proporcionados. Por favor, hazme una pregunta relacionada con este período histórico."

/-- The localized error template; the caught exception text is appended. -/
def errorPrefixText : String := "Ocurrió un error al procesar tu mensaje: "

/-- Prefix of the case-already-exists escalation response. -/
def escalationExistsPrefix : String :=
  "Ya existe un caso de escalamiento para esta conversación. Escalation ID: "

/-- The fixed first sentence of a fresh escalation response. -/
def escalationNewText : String :=
  "Entiendo que podrías necesitar asistencia humana. Permíteme escalar esta conversación por ti."

/-- The conversation id actually used: a fresh uuid when the caller passed
nothing or an empty (falsy) string. -/
def resolveCid (conversation_id : Option String) (env : Env) : String :=
  match conversation_id with
  | none => env.freshUuid
  | some c => if c == "" then env.freshUuid else c

/-- Embeds `RAGService.process_message`. The function is total because
every exception source inside the `try` body other than
`generate_response` handles its own failures, and the top-level `except`
clause (whose own persistence calls cannot raise either) converts a
generation failure into the localized error result. Returns the result
dictionary, the final external state and the ordered adapter-call log.
The unused `use_tools` parameter of the source is kept. -/
def process_message (env : Env) (st : RagState) (message : String)
    (conversation_id : Option String) (use_tools : Bool) :
    ChatResult × RagState × List CallTag :=
  let _ := use_tools
  let cid := resolveCid conversation_id env
  let s0 := logCall (st, ⟨[], 0⟩) (CallTag.get_messages cid)
  let conversation_messages := get_conversation_messages st env cid
  let s1 := logCall s0 (CallTag.safety_check message)
  if (env.is_safe.getD true) == false then
    let sa := (add_message env s1 cid "user" message).1
    let sb := (add_message env sa cid "assistant" refusalText).1
    ({ response := refusalText
       conversation_id := cid
       sources := []
       tools_used := ["content_safety_check"]
       confidence_score := 0 }, sb.1, sb.2.calls)
  else
    let s2 := logCall s1 (CallTag.intent_classify message)
    let intent := env.intent.getD "question"
    let branch : (RagState × Trace) × Except String (String × List String) :=
      if intent == "escalation" then
        match findEscalationId conversation_messages with
        | some eid =>
          (s2, .ok (escalationExistsPrefix ++ eid, ["human_escalation"]))
        | none =>
          let r := escalation_tool_run env s2 cid "User requested escalation"
          (r.1, .ok (escalationNewText ++ " " ++ r.2, ["human_escalation"]))
      else if intent == "summary_request" then
        let r := summary_tool_run env s2 cid
        (r.1, .ok (r.2, ["conversation_summary"]))
      else if intent == "off_topic" then
        match generate_rag_response env s2 message conversation_messages with
        | (s3, .ok (resp, tools)) =>
          if strIn "I don\x27t have enough information" resp ||
              strIn "No relevant documents found" resp then
            (s3, .ok (offTopicText, []))
          else (s3, .ok (resp, tools))
        | (s3, .error e) => (s3, .error e)
      else
        match generate_rag_response env s2 message conversation_messages with
        | (s3, .ok p) => (s3, .ok p)
        | (s3, .error e) => (s3, .error e)
    match branch with
    | (s4, .ok (response, tools_used)) =>
      let sa := (add_message env s4 cid "user" message).1
      let sb := (add_message env sa cid "assistant" response).1
      ({ response := response
         conversation_id := cid
         sources := []
         tools_used := tools_used
         confidence_score := env.confidence.getD (mkRat 1 2) }, sb.1, sb.2.calls)
    | (s4, .error e) =>
      let error_response := errorPrefixText ++ e
      let sb :=
        if cid != "" then
          let sa := (add_message env s4 cid "user" message).1
          (add_message env sa cid "assistant" error_response).1
        else s4
      ({ response := error_response
         conversation_id := if cid != "" then cid else env.freshUuid2
         sources := []
         tools_used := []
         confidence_score := 0 }, sb.1, sb.2.calls)

end RAGService

namespace MetricsService

/-- The public (async) methods of `MetricsService`. -/
inductive PublicMethod where
  | record_response
  | record_user_rating
  | calculate_response_accuracy
  | get_system_metrics
  | get_conversation_metrics
  | get_all_conversation_metrics
  | get_response_metrics
  | get_recent_metrics
  | clear_old_metrics
  | export_metrics
deriving Repr, DecidableEq

/-- Transcribed method by method from the source: whether the body of the
public method is wrapped in `async with self._lock`. Only the two
recording methods, the system snapshot and the pruning method take the
mutex; the remaining getters and the accuracy scorer read the collections
without it. -/
def acquiresLock : PublicMethod → Bool
  | .record_response => true
  | .record_user_rating => true
  | .get_system_metrics => true
  | .clear_old_metrics => true
  | .calculate_response_accuracy => false
  | .get_conversation_metrics => false
  | .get_all_conversation_metrics => false
  | .get_response_metrics => false
  | .get_recent_metrics => false
  | .export_metrics => false

/-- The per-conversation relation of the spec: `follow_up_questions` is
`total_messages - 1` when `total_messages > 0` and `0` otherwise, for every
row of the conversation collection. -/
def followInv (st : MetricsState) : Prop :=
  ∀ p ∈ st.conversation_metrics,
    p.2.follow_up_questions =
      if 0 < p.2.total_messages then p.2.total_messages - 1 else 0

/-- State after one `record_response` for conversation `c` followed by a
`record_user_rating` on the recorded response id. -/
def ratedOnceState : MetricsState :=
  (record_user_rating
    (record_response initState "c" "q" "a" 1 1 [] 0 false none "r1" 0).1
    "r1" "like" 0).1

/-- Boolean returned by the rating call of `ratedOnceState`. -/
def ratedOnceOk : Bool :=
  (record_user_rating
    (record_response initState "c" "q" "a" 1 1 [] 0 false none "r1" 0).1
    "r1" "like" 0).2

/-- State after one `record_response` that used tool `t`, followed by a
rating call with the empty string as rating. -/
def emptyRatedState : MetricsState :=
  (record_user_rating
    (record_response initState "c" "q" "a" 1 1 ["t"] 0 false none "r1" 0).1
    "r1" "" 0).1

/-- Boolean returned by the empty-string rating call. -/
def emptyRatedOk : Bool :=
  (record_user_rating
    (record_response initState "c" "q" "a" 1 1 ["t"] 0 false none "r1" 0).1
    "r1" "" 0).2

end MetricsService

namespace RAGService

/-- Matcher for `add_message` entries of the call log. -/
def isAddMessageCall : CallTag → Bool
  | .add_message _ _ _ => true
  | _ => false

/-- Fully concrete adapter oracle for the first call of the reuse
scenario: intent `escalation`, everything healthy. -/
def scenarioEnv1 : Env :=
  { getMessagesFails := false
    is_safe := some true
    intent := some "escalation"
    confidence := some 1
    search := .ok []
    generate := .ok ""
    summarize := .ok ""
    getSummaryFails := false
    storeSummaryOk := true
    storePreferencesOk := true
    addMessageOk := fun _ => true
    freshUuid := "u1"
    freshUuid2 := "u2"
    freshEscalationId := "123e4567-e89b-12d3-a456-426614174000" }

/-- Oracle for the second call: same intent, different fresh ids. -/
def scenarioEnv2 : Env :=
  { scenarioEnv1 with
    freshUuid := "u3"
    freshUuid2 := "u4"
    freshEscalationId := "ffffffff-0000-1111-2222-333333333333" }

/-- First escalation call on an empty store. -/
def scenarioRun1 : ChatResult × RagState × List CallTag :=
  process_message scenarioEnv1 ⟨[], [], []⟩ "I need a human" (some "conv") true

/-- Second escalation call for the same conversation id, from the state
the first call left behind. -/
def scenarioRun2 : ChatResult × RagState × List CallTag :=
  process_message scenarioEnv2 scenarioRun1.2.1 "escalate again" (some "conv") true

end RAGService

namespace MetricsService

/-- One concrete response row with timestamp 100, used to witness the
pruning behaviour. -/
def wRow : ResponseMetrics :=
  { response_id := "r1"
    conversation_id := "c"
    query := "q"
    response := "a"
    response_time := 1
    confidence_score := 1
    tools_used := []
    sources_count := 0
    timestamp := 100
    user_rating := none
    error_occurred := false
    error_message := none }

/-- Concrete aggregator state holding `wRow` and one conversation row. -/
def wState : MetricsState :=
  ⟨[wRow], [("c", freshConversationMetrics "c" 100)]⟩

/-- Concrete arguments for one `record_response` call. -/
def wArgs : RecordArgs :=
  { conversation_id := "c"
    query := "q"
    response := "a"
    response_time := 1
    confidence_score := 1
    tools_used := ["t"]
    sources_count := 0
    error_occurred := false
    error_message := none
    response_id := "r1"
    now := 0 }

/-- State after one `record_response` that used tool `t`. -/
def singleRespState : MetricsState :=
  (record_response initState "c" "q" "a" 1 1 ["t"] 0 false none "r1" 0).1

/-- The row that `singleRespState` holds. -/
def baseRow : ResponseMetrics :=
  { response_id := "r1"
    conversation_id := "c"
    query := "q"
    response := "a"
    response_time := 1
    confidence_score := 1
    tools_used := ["t"]
    sources_count := 0
    timestamp := 0
    user_rating := none
    error_occurred := false
    error_message := none }

end MetricsService

namespace RAGService

/-- Oracle whose generation call raises (everything else healthy),
used to witness the top-level error path. -/
def errorEnv : Env :=
  { getMessagesFails := false
    is_safe := some true
    intent := some "question"
    confidence := some 1
    search := .ok ["doc one"]
    generate := .error "boom"
    summarize := .ok ""
    getSummaryFails := false
    storeSummaryOk := true
    storePreferencesOk := true
    addMessageOk := fun _ => false
    freshUuid := "u1"
    freshUuid2 := "u2"
    freshEscalationId := "e1" }

/-- Oracle whose safety check flags the message as unsafe. -/
def flaggedEnv : Env :=
  { errorEnv with
    is_safe := some false
    generate := .ok "hola"
    addMessageOk := fun _ => true }

/-- Concrete store whose conversation `conv` already carries an assistant
turn with an escalation marker. -/
def markerState : RagState :=
  ⟨[("conv", [⟨"assistant", "ok. Escalation ID: abc-123"⟩])], [], []⟩

end RAGService

section HelperLemmas

theorem lookupA_setA_self {α : Type} (l : List (String × α)) (k : String) (v : α) :
    lookupA (setA l k v) k = some v := by
  induction l with
  | nil => simp [setA, lookupA]
  | cons hd tl ih =>
    obtain ⟨k', w⟩ := hd
    by_cases h : k' = k <;> simp [setA, lookupA, h, ih]

theorem setA_setA {α : Type} (l : List (String × α)) (k : String) (v w : α) :
    setA (setA l k v) k w = setA l k w := by
  induction l with
  | nil => simp [setA]
  | cons hd tl ih =>
    obtain ⟨k', u⟩ := hd
    by_cases h : k' = k <;> simp [setA, h, ih]

theorem mem_setA {α : Type} {l : List (String × α)} {k : String} {v : α}
    {p : String × α} (h : p ∈ setA l k v) : p ∈ l ∨ p = (k, v) := by
  induction l with
  | nil => simp [setA] at h; simp [h]
  | cons hd tl ih =>
    obtain ⟨k', u⟩ := hd
    by_cases hk : k' = k
    · simp [setA, hk] at h
      rcases h with h | h
      · exact Or.inr (by simp [h, hk])
      · exact Or.inl (by simp [h])
    · simp [setA, hk] at h
      rcases h with h | h
      · exact Or.inl (by simp [h])
      · rcases ih h with h' | h'
        · exact Or.inl (by simp [h'])
        · exact Or.inr h'

theorem lookupA_mem {α : Type} {l : List (String × α)} {k : String} {v : α}
    (h : lookupA l k = some v) : (k, v) ∈ l := by
  induction l with
  | nil => simp [lookupA] at h
  | cons hd tl ih =>
    obtain ⟨k', u⟩ := hd
    by_cases hk : k' = k
    · simp [lookupA, hk] at h
      simp [hk, h]
    · simp [lookupA, hk] at h
      exact List.mem_cons_of_mem _ (ih h)

end HelperLemmas

namespace MetricsService

theorem accuracyScan_eq_find (ql rl : String) (table : List (String × TestQuery)) :
    accuracyScan ql rl table =
      match table.find? (fun p => p.2.keywords.any (fun k => strIn k ql)) with
      | none => mkRat 1 2
      | some p =>
        if strIn (pyLower p.2.expected_answer) rl then 1
        else if p.2.keywords.any (fun k => strIn k rl) then mkRat 7 10
        else mkRat 3 10 := by
  induction table with
  | nil => rfl
  | cons hd tl ih =>
    obtain ⟨name, t⟩ := hd
    by_cases h : t.keywords.any (fun k => strIn k ql) <;>
      simp [accuracyScan, List.find?, h, ih]

/-- C6: `calculate_response_accuracy` scores by the first table entry whose
keywords occur in the lowercased query — 1.0 when the lowercased expected
answer occurs in the lowercased response, else 0.7 when any keyword occurs
in it, else 0.3 — and yields 0.5 when the keywords of no entry occur in the
query; in particular the four concrete example pairs score 1.0, 0.7, 0.3
and 0.5. -/
theorem calculate_response_accuracy_spec :
    (∀ q r : String,
      calculate_response_accuracy q r =
        match test_queries.find?
            (fun p => p.2.keywords.any (fun k => strIn k (pyLower q))) with
        | none => mkRat 1 2
        | some p =>
          if strIn (pyLower p.2.expected_answer) (pyLower r) then 1
          else if p.2.keywords.any (fun k => strIn k (pyLower r)) then mkRat 7 10
          else mkRat 3 10) ∧
    calculate_response_accuracy "When did the Mexican Revolution start?"
      "The Mexican Revolution started in 1910." = 1 ∧
    calculate_response_accuracy "When did the Mexican Revolution start?"
      "The revolution began in the early 20th century." = mkRat 7 10 ∧
    calculate_response_accuracy "When did the Mexican Revolution start?"
      "The weather is nice today." = mkRat 3 10 ∧
    calculate_response_accuracy "What is the weather like?"
      "Sunny outside." = mkRat 1 2 := by
  refine ⟨fun q r => accuracyScan_eq_find (pyLower q) (pyLower r) test_queries,
    by decide, by decide, by decide, by decide⟩

/-- C1 (failing input): after one `record_response` for conversation `c`
and one `record_user_rating` on the recorded response id, the computed
`total_messages` for `c` is 2 although exactly one response row with that
conversation id exists — `record_user_rating` re-runs the conversation
update, which unconditionally increments `total_messages`. -/
theorem rating_increments_total_messages :
    ratedOnceOk = true ∧
    (lookupA ratedOnceState.conversation_metrics "c").map
      ConversationMetrics.total_messages = some 2 ∧
    (ratedOnceState.response_metrics.filter
      (fun rm => rm.conversation_id == "c")).length = 1 := by
  refine ⟨by decide, by decide, by decide⟩

/-- C9 (counterexample): `get_conversation_metrics` does not take the
mutex, so not every public method of the aggregator executes under it. -/
theorem get_conversation_metrics_unlocked :
    acquiresLock PublicMethod.get_conversation_metrics = false ∧
    ¬ ∀ m : PublicMethod, acquiresLock m = true := by
  refine ⟨rfl, fun h => ?_⟩
  simpa [acquiresLock] using h PublicMethod.get_conversation_metrics

/-- C9 (amended): exactly the two recording methods, the system snapshot
and the pruning method run under the single mutex; the read-only getters
(`get_conversation_metrics`, `get_all_conversation_metrics`,
`get_response_metrics`, `get_recent_metrics`), `export_metrics` and
`calculate_response_accuracy` access the collections without it. -/
theorem lock_acquisition_spec :
    ∀ m : PublicMethod,
      acquiresLock m = true ↔
        (m = PublicMethod.record_response ∨
         m = PublicMethod.record_user_rating ∨
         m = PublicMethod.get_system_metrics ∨
         m = PublicMethod.clear_old_metrics) := by
  intro m
  cases m <;> simp [acquiresLock]

end MetricsService

namespace MetricsService

theorem update_conversation_metrics_responses (st : MetricsState)
    (cid : String) (rm : ResponseMetrics) (now : Int) :
    (update_conversation_metrics st cid rm now).response_metrics =
      st.response_metrics := rfl

theorem applyRecord_length (st : MetricsState) (a : RecordArgs) :
    (applyRecord st a).response_metrics.length =
      st.response_metrics.length + 1 := by
  simp [applyRecord, record_response, update_conversation_metrics_responses]

theorem runRecords_length (l : List RecordArgs) (st : MetricsState) :
    (runRecords st l).response_metrics.length =
      st.response_metrics.length + l.length := by
  induction l generalizing st with
  | nil => simp [runRecords]
  | cons a tl ih =>
    have h := ih (applyRecord st a)
    simp only [runRecords, List.foldl, List.length_cons] at h ⊢
    rw [h, applyRecord_length]
    omega

theorem get_system_metrics_total_queries (st : MetricsState) (now : Int) :
    (get_system_metrics st now).total_queries = st.response_metrics.length := by
  unfold get_system_metrics
  split
  · next h => simp_all [List.isEmpty_iff]
  · rfl

/-- C5: over any sequence of `record_response` calls from the fresh state,
`get_system_metrics` reports `total_queries` equal to the number of calls
made, and on the fresh state it returns the all-zero snapshot. -/
theorem total_queries_counts_records :
    (∀ (calls : List RecordArgs) (now : Int),
      (get_system_metrics (runRecords initState calls) now).total_queries =
        calls.length) ∧
    (∀ now : Int,
      get_system_metrics initState now =
        { total_queries := 0
          total_errors := 0
          average_response_time := 0
          like_percentage := 0
          tool_effectiveness := []
          error_rate := 0
          conversation_retention_rate := 0
          timestamp := now }) := by
  constructor
  · intro calls now
    rw [get_system_metrics_total_queries, runRecords_length]
    simp [initState]
  · intro now
    rfl

/-- C7: `clear_old_metrics 0` empties both collections regardless of prior
state, and with a nonzero `days` whose cutoff lies strictly before every
stored timestamp and every `last_activity` it leaves the state unchanged. -/
theorem clear_old_metrics_spec :
    ∀ (st : MetricsState) (days now : Int),
      clear_old_metrics st 0 now = initState ∧
      (days ≠ 0 →
        (∀ rm ∈ st.response_metrics, now - days * 86400 < rm.timestamp) →
        (∀ p ∈ st.conversation_metrics, now - days * 86400 < p.2.last_activity) →
        clear_old_metrics st days now = st) := by
  intro st days now
  refine ⟨rfl, fun hd h1 h2 => ?_⟩
  unfold clear_old_metrics
  rw [if_neg hd]
  obtain ⟨rs, cs⟩ := st
  simp only [MetricsState.mk.injEq]
  constructor
  · exact List.filter_eq_self.mpr fun rm hm => by
      simpa using le_of_lt (h1 rm hm)
  · exact List.filter_eq_self.mpr fun p hp => by
      simpa using le_of_lt (h2 p hp)

/-- Closed instantiation of `clear_old_metrics_spec`: concrete one-row
state, `days = 1`, `now = 0`, all timestamps at 100. -/
theorem clear_old_metrics_spec_witness :
    clear_old_metrics wState 0 0 = initState ∧
    clear_old_metrics wState 1 0 = wState :=
  ⟨(clear_old_metrics_spec wState 1 0).1,
   (clear_old_metrics_spec wState 1 0).2 (by decide)
     (by decide) (by decide)⟩

end MetricsService

namespace MetricsService

theorem update_conversation_metrics_shape (st : MetricsState) (cid : String)
    (rm : ResponseMetrics) (now : Int) :
    ∃ conv : ConversationMetrics,
      (update_conversation_metrics st cid rm now).conversation_metrics =
        setA st.conversation_metrics cid conv ∧
      conv.total_messages =
        ((lookupA st.conversation_metrics cid).getD
          (freshConversationMetrics cid now)).total_messages + 1 ∧
      conv.follow_up_questions =
        (if ((lookupA st.conversation_metrics cid).getD
              (freshConversationMetrics cid now)).total_messages + 1 > 1 then
          ((lookupA st.conversation_metrics cid).getD
            (freshConversationMetrics cid now)).follow_up_questions + 1
        else
          ((lookupA st.conversation_metrics cid).getD
            (freshConversationMetrics cid now)).follow_up_questions) ∧
      conv.total_likes =
        (if rm.user_rating == some "like" then
          ((lookupA st.conversation_metrics cid).getD
            (freshConversationMetrics cid now)).total_likes + 1
        else
          ((lookupA st.conversation_metrics cid).getD
            (freshConversationMetrics cid now)).total_likes) ∧
      conv.total_dislikes =
        (if rm.user_rating == some "dislike" then
          ((lookupA st.conversation_metrics cid).getD
            (freshConversationMetrics cid now)).total_dislikes + 1
        else
          ((lookupA st.conversation_metrics cid).getD
            (freshConversationMetrics cid now)).total_dislikes) := by
  unfold update_conversation_metrics
  dsimp only
  split
  · exact ⟨_, rfl, rfl, rfl, rfl, rfl⟩
  · exact ⟨_, rfl, rfl, rfl, rfl, rfl⟩

theorem update_preserves_followInv (st : MetricsState) (cid : String)
    (rm : ResponseMetrics) (now : Int) (h : followInv st) :
    followInv (update_conversation_metrics st cid rm now) := by
  obtain ⟨conv, heq, htot, hfol, -, -⟩ :=
    update_conversation_metrics_shape st cid rm now
  intro p hp
  rw [heq] at hp
  rcases mem_setA hp with hmem | rfl
  · exact h p hmem
  · dsimp only
    rw [htot, hfol]
    rcases hl : lookupA st.conversation_metrics cid with _ | cm
    · simp [freshConversationMetrics]
    · have hcm := h (cid, cm) (lookupA_mem hl)
      dsimp only at hcm
      simp only [Option.getD_some]
      split_ifs at hcm ⊢ <;> omega

theorem applyOp_preserves_followInv (st : MetricsState) (op : MetricsOp)
    (h : followInv st) : followInv (applyOp st op) := by
  cases op with
  | response a =>
    simp only [applyOp, applyRecord, record_response]
    exact update_preserves_followInv _ _ _ _ (fun p hp => h p hp)
  | rating rid rating now =>
    simp only [applyOp, record_user_rating]
    cases hf : findResp st.response_metrics rid with
    | none => simpa using h
    | some rm =>
      simp only
      exact update_preserves_followInv _ _ _ _ (fun p hp => h p hp)

theorem runOps_preserves_followInv (ops : List MetricsOp) (st : MetricsState)
    (h : followInv st) : followInv (runOps st ops) := by
  induction ops generalizing st with
  | nil => simpa [runOps] using h
  | cons op tl ih =>
    simp only [runOps, List.foldl] at ih ⊢
    exact ih _ (applyOp_preserves_followInv st op h)

/-- C8: in every state reachable from the fresh aggregator by
`record_response` and `record_user_rating` calls, every conversation row
satisfies `follow_up_questions = total_messages - 1` when
`total_messages > 0` and `0` otherwise; moreover both calls preserve this
relation from any state satisfying it. -/
theorem follow_up_invariant :
    (∀ ops : List MetricsOp, followInv (runOps initState ops)) ∧
    (∀ (st : MetricsState) (op : MetricsOp),
      followInv st → followInv (applyOp st op)) := by
  constructor
  · intro ops
    refine runOps_preserves_followInv ops initState ?_
    intro p hp
    simp [initState] at hp
  · exact applyOp_preserves_followInv

/-- Closed instantiation of `follow_up_invariant`: a concrete two-call run
and one concrete preservation step. -/
theorem follow_up_invariant_witness :
    followInv (runOps initState
      [MetricsOp.response wArgs, MetricsOp.rating "r1" "like" 0]) ∧
    followInv (applyOp wState (MetricsOp.rating "r1" "x" 5)) :=
  ⟨follow_up_invariant.1 [MetricsOp.response wArgs, MetricsOp.rating "r1" "like" 0],
   follow_up_invariant.2 wState (MetricsOp.rating "r1" "x" 5)
     (by unfold followInv; decide)⟩

end MetricsService

namespace MetricsService

theorem findResp_mem {l : List ResponseMetrics} {rid : String}
    {rm : ResponseMetrics} (h : findResp l rid = some rm) : rm ∈ l := by
  induction l with
  | nil => simp [findResp] at h
  | cons hd tl ih =>
    by_cases hh : hd.response_id = rid
    · simp [findResp, hh] at h
      simp [h]
    · simp [findResp, hh] at h
      exact List.mem_cons_of_mem _ (ih h)

theorem findResp_setRating (l : List ResponseMetrics) (rid r : String) :
    findResp (setRating l rid r) rid =
      (findResp l rid).map (fun rm => { rm with user_rating := some r }) := by
  induction l with
  | nil => simp [findResp, setRating]
  | cons hd tl ih =>
    by_cases hh : hd.response_id = rid
    · simp [findResp, setRating, hh]
    · simp [findResp, setRating, hh, ih]

/-- C10 (counterexample): rating a recorded response with the empty string
succeeds (`true`) and stores the rating, yet the response does not enter
the rated-responses denominator — `if rm.user_rating:` is falsy on `""` —
so the rated filter stays empty and `tool_effectiveness` has no entry for
the tool the response used, contradicting the claim for `r = ""`. -/
theorem empty_rating_not_counted :
    emptyRatedOk = true ∧
    (findResp emptyRatedState.response_metrics "r1").map
      ResponseMetrics.user_rating = some (some "") ∧
    (ratedResponses emptyRatedState.response_metrics).length = 0 ∧
    lookupA (get_system_metrics emptyRatedState 0).tool_effectiveness "t" =
      none := by
  refine ⟨by decide, by decide, by decide, by decide⟩

/-- C10 (amended): for every rating string `r` and recorded response id,
`record_user_rating` returns `true` and sets `user_rating` to `r`; when
`r` is neither "like" nor "dislike" the per-conversation like and dislike
counters are left unchanged; and the rated row enters the rated-responses
filter (the denominator of `like_percentage` and `tool_effectiveness`)
exactly when `r` is nonempty — not for every rating string. -/
theorem record_user_rating_spec :
    ∀ (st : MetricsState) (rid r : String) (now : Int) (rm : ResponseMetrics),
      findResp st.response_metrics rid = some rm →
      r ≠ "like" → r ≠ "dislike" →
      (record_user_rating st rid r now).2 = true ∧
      findResp (record_user_rating st rid r now).1.response_metrics rid =
        some { rm with user_rating := some r } ∧
      ({ rm with user_rating := some r } ∈
          ratedResponses (record_user_rating st rid r now).1.response_metrics ↔
        r ≠ "") ∧
      (lookupA (record_user_rating st rid r now).1.conversation_metrics
          rm.conversation_id).map ConversationMetrics.total_likes =
        some ((lookupA st.conversation_metrics rm.conversation_id).getD
          (freshConversationMetrics rm.conversation_id now)).total_likes ∧
      (lookupA (record_user_rating st rid r now).1.conversation_metrics
          rm.conversation_id).map ConversationMetrics.total_dislikes =
        some ((lookupA st.conversation_metrics rm.conversation_id).getD
          (freshConversationMetrics rm.conversation_id now)).total_dislikes := by
  intro st rid r now rm hf hlike hdislike
  have hstate : (record_user_rating st rid r now).1 =
      update_conversation_metrics
        { st with response_metrics := setRating st.response_metrics rid r }
        rm.conversation_id { rm with user_rating := some r } now := by
    simp only [record_user_rating, hf]
  have hret : (record_user_rating st rid r now).2 = true := by
    simp only [record_user_rating, hf]
  have hresp : (record_user_rating st rid r now).1.response_metrics =
      setRating st.response_metrics rid r := by
    rw [hstate]
    exact update_conversation_metrics_responses _ _ _ _
  have hfind : findResp (setRating st.response_metrics rid r) rid =
      some { rm with user_rating := some r } := by
    rw [findResp_setRating, hf]
    rfl
  obtain ⟨conv, heq, -, -, hlk, hdlk⟩ := update_conversation_metrics_shape
    { st with response_metrics := setRating st.response_metrics rid r }
    rm.conversation_id { rm with user_rating := some r } now
  refine ⟨hret, by rw [hresp]; exact hfind, ?_, ?_, ?_⟩
  · rw [hresp]
    unfold ratedResponses
    constructor
    · intro hmem
      have := (List.mem_filter.mp hmem).2
      simpa [truthyOptStr] using this
    · intro hr
      refine List.mem_filter.mpr ⟨findResp_mem hfind, ?_⟩
      simpa [truthyOptStr] using hr
  · rw [hstate, heq]
    rw [lookupA_setA_self]
    simp [hlk, hlike]
  · rw [hstate, heq]
    rw [lookupA_setA_self]
    simp [hdlk, hdislike]

/-- Closed instantiation of `record_user_rating_spec` at a one-row state
and the rating string "meh". -/
theorem record_user_rating_spec_witness :
    (record_user_rating singleRespState "r1" "meh" 0).2 = true ∧
    findResp (record_user_rating singleRespState "r1" "meh" 0).1.response_metrics
        "r1" = some { baseRow with user_rating := some "meh" } ∧
    ({ baseRow with user_rating := some "meh" } ∈
        ratedResponses
          (record_user_rating singleRespState "r1" "meh" 0).1.response_metrics ↔
      ("meh" : String) ≠ "") ∧
    (lookupA (record_user_rating singleRespState "r1" "meh" 0).1.conversation_metrics
        baseRow.conversation_id).map ConversationMetrics.total_likes =
      some ((lookupA singleRespState.conversation_metrics
        baseRow.conversation_id).getD
        (freshConversationMetrics baseRow.conversation_id 0)).total_likes ∧
    (lookupA (record_user_rating singleRespState "r1" "meh" 0).1.conversation_metrics
        baseRow.conversation_id).map ConversationMetrics.total_dislikes =
      some ((lookupA singleRespState.conversation_metrics
        baseRow.conversation_id).getD
        (freshConversationMetrics baseRow.conversation_id 0)).total_dislikes :=
  record_user_rating_spec singleRespState "r1" "meh" 0 baseRow
    (by decide) (by decide) (by decide)

end MetricsService

namespace RAGService

theorem resolveCid_ne_empty (cid0 : Option String) (env : Env)
    (h : env.freshUuid ≠ "") : resolveCid cid0 env ≠ "" := by
  cases cid0 with
  | none => simpa [resolveCid] using h
  | some c =>
    simp only [resolveCid]
    split
    · exact h
    · next hne => simpa using hne

/-- C3: when the safety adapter flags the message as unsafe (and turn
persistence succeeds), `process_message` returns the fixed refusal with
`tools_used = ["content_safety_check"]` and confidence 0.0, appends
exactly the user turn and the refusal turn to the session store, and its
adapter-call log contains no intent classification, retrieval or
generation call. -/
theorem process_message_safety_refusal :
    ∀ (env : Env) (st : RagState) (message : String) (cid0 : Option String)
      (ut : Bool),
      env.is_safe = some false →
      env.addMessageOk 0 = true → env.addMessageOk 1 = true →
      process_message env st message cid0 ut =
        ({ response := refusalText
           conversation_id := resolveCid cid0 env
           sources := []
           tools_used := ["content_safety_check"]
           confidence_score := 0 },
         { st with
             conversations := setA st.conversations (resolveCid cid0 env)
               ((lookupA st.conversations (resolveCid cid0 env)).getD [] ++
                                [⟨"user", message⟩, ⟨"assistant", refusalText⟩]) },
         [CallTag.get_messages (resolveCid cid0 env),
          CallTag.safety_check message,
          CallTag.add_message (resolveCid cid0 env) "user" message,
          CallTag.add_message (resolveCid cid0 env) "assistant" refusalText]) := by
  intro env st message cid0 ut hsafe h0 h1
  simp [process_message, logCall, add_message, hsafe, h0, h1,
    lookupA_setA_self, setA_setA]

/-- Closed instantiation of `process_message_safety_refusal` at
`flaggedEnv` on an empty store. -/
theorem process_message_safety_refusal_witness :
    process_message flaggedEnv ⟨[], [], []⟩ "hola" (some "conv") true =
      ({ response := refusalText
         conversation_id := resolveCid (some "conv") flaggedEnv
         sources := []
         tools_used := ["content_safety_check"]
         confidence_score := 0 },
       { (⟨[], [], []⟩ : RagState) with
           conversations := setA ([] : List (String × List Msg))
                              (resolveCid (some "conv") flaggedEnv)
                              ((lookupA ([] : List (String × List Msg))
                                  (resolveCid (some "conv") flaggedEnv)).getD [] ++
                                [⟨"user", "hola"⟩, ⟨"assistant", refusalText⟩]) },
       [CallTag.get_messages (resolveCid (some "conv") flaggedEnv),
        CallTag.safety_check "hola",
        CallTag.add_message (resolveCid (some "conv") flaggedEnv) "user" "hola",
        CallTag.add_message (resolveCid (some "conv") flaggedEnv) "assistant"
          refusalText]) :=
  process_message_safety_refusal flaggedEnv ⟨[], [], []⟩ "hola" (some "conv")
    true rfl rfl rfl

end RAGService

namespace RAGService

theorem add_message_trace (env : Env) (s : RagState × Trace)
    (cid role content : String) :
    (add_message env s cid role content).1.2 =
      { calls := s.2.calls ++ [CallTag.add_message cid role content]
        addCount := s.2.addCount + 1 } := by
  simp only [add_message]
  split <;> rfl

/-- C2: when the safety check passes, the classified intent routes to the
RAG path, and the generation adapter raises, `process_message` still
returns normally — with no constraint on any persistence outcome, so a
persistence failure on this path cannot change or abort the result: the
response is the localized error template with the exception text
appended, `tools_used` is empty, confidence is 0.0, the conversation id
is the one resolved at entry (fresh when none was supplied), and the
call log records the attempt to persist the user turn and the error
turn. -/
theorem process_message_error_path :
    ∀ (env : Env) (st : RagState) (message : String) (cid0 : Option String)
      (ut : Bool) (e : String),
      env.is_safe.getD true = true →
      env.intent.getD "question" ≠ "escalation" →
      env.intent.getD "question" ≠ "summary_request" →
      env.generate = .error e →
      env.freshUuid ≠ "" →
      (process_message env st message cid0 ut).1 =
        { response := errorPrefixText ++ e
          conversation_id := resolveCid cid0 env
          sources := []
          tools_used := []
          confidence_score := 0 } ∧
      ((process_message env st message cid0 ut).2.2.filter isAddMessageCall) =
        [CallTag.add_message (resolveCid cid0 env) "user" message,
         CallTag.add_message (resolveCid cid0 env) "assistant"
           (errorPrefixText ++ e)] := by
  intro env st message cid0 ut e hsafe hesc hsum hgen hu
  have hcid' : (resolveCid cid0 env != "") = true := by
    simpa using resolveCid_ne_empty cid0 env hu
  have hesc' : (env.intent.getD "question" == "escalation") = false :=
    beq_eq_false_iff_ne.mpr hesc
  have hsum' : (env.intent.getD "question" == "summary_request") = false :=
    beq_eq_false_iff_ne.mpr hsum
  by_cases hot : (env.intent.getD "question" == "off_topic") = true <;>
    rcases hs : env.search with err | docs <;>
      simp [process_message, generate_rag_response, logCall, add_message_trace,
        hsafe, hgen, hs, hot, hcid', hesc', hsum', isAddMessageCall,
        List.filter]

/-- Closed instantiation of `process_message_error_path` at `errorEnv`
(whose generation call raises "boom" and whose persistence always
fails). -/
theorem process_message_error_path_witness :
    (process_message errorEnv ⟨[], [], []⟩ "hola" none true).1 =
      { response := errorPrefixText ++ "boom"
        conversation_id := resolveCid none errorEnv
        sources := []
        tools_used := []
        confidence_score := 0 } ∧
    ((process_message errorEnv ⟨[], [], []⟩ "hola" none true).2.2.filter
        isAddMessageCall) =
      [CallTag.add_message (resolveCid none errorEnv) "user" "hola",
       CallTag.add_message (resolveCid none errorEnv) "assistant"
         (errorPrefixText ++ "boom")] :=
  process_message_error_path errorEnv ⟨[], [], []⟩ "hola" none true "boom"
    rfl (by decide) (by decide) rfl (by decide)

end RAGService

namespace RAGService

theorem add_message_escalations (env : Env) (s : RagState × Trace)
    (cid role content : String) :
    (add_message env s cid role content).1.1.escalations = s.1.escalations := by
  simp only [add_message]
  split <;> rfl

/-- C4: with intent `escalation`, when the prior history already yields an
escalation id the orchestrator returns the case-already-exists message
reusing that id and creates no record, and when it yields none (and the
preferences store succeeds) it creates exactly one fresh record and
returns the message carrying the fresh id — `tools_used =
["human_escalation"]` in both cases; in the concrete two-call scenario
the second call reuses the id of the first call and mints no second record. -/
theorem escalation_single_record :
    (∀ (env : Env) (st : RagState) (message : String) (cid0 : Option String)
      (ut : Bool) (i : String),
      env.is_safe.getD true = true →
      env.intent.getD "question" = "escalation" →
      findEscalationId
          (get_conversation_messages st env (resolveCid cid0 env)) = some i →
      (process_message env st message cid0 ut).1 =
        { response := escalationExistsPrefix ++ i
          conversation_id := resolveCid cid0 env
          sources := []
          tools_used := ["human_escalation"]
          confidence_score := env.confidence.getD (mkRat 1 2) } ∧
      (process_message env st message cid0 ut).2.1.escalations =
        st.escalations) ∧
    (∀ (env : Env) (st : RagState) (message : String) (cid0 : Option String)
      (ut : Bool),
      env.is_safe.getD true = true →
      env.intent.getD "question" = "escalation" →
      findEscalationId
          (get_conversation_messages st env (resolveCid cid0 env)) = none →
      env.storePreferencesOk = true →
      (process_message env st message cid0 ut).1 =
        { response := escalationNewText ++ " " ++
            ("Conversation escalated successfully. Escalation ID: " ++
              env.freshEscalationId)
          conversation_id := resolveCid cid0 env
          sources := []
          tools_used := ["human_escalation"]
          confidence_score := env.confidence.getD (mkRat 1 2) } ∧
      (process_message env st message cid0 ut).2.1.escalations =
        st.escalations ++
          [⟨env.freshEscalationId, resolveCid cid0 env,
            "User requested escalation", "pending"⟩]) ∧
    (scenarioRun1.2.1.escalations =
        [⟨"123e4567-e89b-12d3-a456-426614174000", "conv",
          "User requested escalation", "pending"⟩] ∧
      scenarioRun2.2.1.escalations = scenarioRun1.2.1.escalations ∧
      scenarioRun2.1.response =
        escalationExistsPrefix ++ "123e4567-e89b-12d3-a456-426614174000" ∧
      scenarioRun2.1.tools_used = ["human_escalation"]) := by
  refine ⟨?_, ?_, by decide, by decide, by decide, by decide⟩
  · intro env st message cid0 ut i hsafe hintent hfind
    have hint' : (env.intent.getD "question" == "escalation") = true := by
      simp [hintent]
    constructor <;>
      simp [process_message, logCall, hsafe, hint', hfind,
        add_message_escalations, add_message_trace]
  · intro env st message cid0 ut hsafe hintent hfind hstore
    have hint' : (env.intent.getD "question" == "escalation") = true := by
      simp [hintent]
    constructor <;>
      simp [process_message, escalation_tool_run, logCall, hsafe, hint',
        hfind, hstore, add_message_escalations, add_message_trace]

/-- Closed instantiation of `escalation_single_record`: the reuse branch
on a store already holding a marker turn, and the creation branch on an
empty store. -/
theorem escalation_single_record_witness :
    ((process_message scenarioEnv1 markerState "help" (some "conv") true).1 =
      { response := escalationExistsPrefix ++ "abc-123"
        conversation_id := resolveCid (some "conv") scenarioEnv1
        sources := []
        tools_used := ["human_escalation"]
        confidence_score := scenarioEnv1.confidence.getD (mkRat 1 2) } ∧
     (process_message scenarioEnv1 markerState "help"
        (some "conv") true).2.1.escalations = markerState.escalations) ∧
    ((process_message scenarioEnv1 ⟨[], [], []⟩ "help" (some "conv") true).1 =
      { response := escalationNewText ++ " " ++
          ("Conversation escalated successfully. Escalation ID: " ++
            scenarioEnv1.freshEscalationId)
        conversation_id := resolveCid (some "conv") scenarioEnv1
        sources := []
        tools_used := ["human_escalation"]
        confidence_score := scenarioEnv1.confidence.getD (mkRat 1 2) } ∧
     (process_message scenarioEnv1 ⟨[], [], []⟩ "help"
        (some "conv") true).2.1.escalations =
       (⟨[], [], []⟩ : RagState).escalations ++
         [⟨scenarioEnv1.freshEscalationId, resolveCid (some "conv") scenarioEnv1,
           "User requested escalation", "pending"⟩]) :=
  ⟨escalation_single_record.1 scenarioEnv1 markerState "help" (some "conv")
      true "abc-123" rfl (by decide) (by decide),
   escalation_single_record.2.1 scenarioEnv1 ⟨[], [], []⟩ "help" (some "conv")
      true rfl (by decide) (by decide) rfl⟩

end RAGService
